import Mathlib

/-!
Verification development for the write-side orchestration layer of
`parquet-cpp` (`src/parquet/file_writer.cc`): the file writer, the row-group
writer, footer serialization (plain and append-merge), and their error
behavior, shallowly embedded as explicit state-passing Lean functions.

Modeling conventions:
* C++ exceptions are modeled by the result pair `state × Option ParquetError`:
  `(s, some e)` means the operation threw `e` with the object's fields as in
  `s` at the throw point; `(s, none)` means normal return.
* The output sink is a byte list (`List Nat`, each entry < 256); `Tell()` is
  its length.
* `int64_t` counters are `Int`; the `uint32_t` footer-length arithmetic is
  done explicitly modulo `2 ^ 32`.
-/

/-- Errors thrown by the writer (C++ `ParquetException` and friends).
`dataIntegrity idx cur prev` records the row-count mismatch message
"Column idx had cur while previous column had prev" thrown by
`RowGroupSerializer::CheckRowsWritten`. -/
inductive ParquetError where
  | dataIntegrity (columnIndex : Nat) (currentRows previousRows : Int)
  | schemaError
  | incompleteRowGroup
  | ioError
  deriving DecidableEq, Repr

/-- Modelled from the spec: the row-group-level metadata accumulator
(`RowGroupMetaDataBuilder`, whose implementation `metadata.cc` is not under
`src/`). It "holds an ordered sequence of column-chunk descriptors (one per
schema column, filled in schema order) and the agreed row count for the
group"; `NextColumnChunk` fails when all schema columns are already filled,
and `Finish` "fails if fewer column-chunk descriptors were filled than the
schema declares columns". -/
structure RowGroupMetaDataBuilder where
  numColumns : Nat
  currentColumn : Nat
  numRowsRecorded : Option Int
  finishedTotalBytes : Option Int
  deriving DecidableEq, Repr

/-- Modelled from the spec: `RowGroupMetaDataBuilder::NextColumnChunk` hands
out the next column-chunk slot in schema order and "fails with
SchemaError if all columns for this schema are already filled". -/
def RowGroupMetaDataBuilder.NextColumnChunk (m : RowGroupMetaDataBuilder) :
    RowGroupMetaDataBuilder × Option ParquetError :=
  if m.currentColumn < m.numColumns then
    ({ m with currentColumn := m.currentColumn + 1 }, none)
  else
    (m, some .schemaError)

/-- Modelled from the spec: `RowGroupMetaDataBuilder::set_num_rows` records
the agreed row count for the group. -/
def RowGroupMetaDataBuilder.set_num_rows (m : RowGroupMetaDataBuilder)
    (n : Int) : RowGroupMetaDataBuilder :=
  { m with numRowsRecorded := some n }

/-- Modelled from the spec: `RowGroupMetaDataBuilder::Finish(total_bytes)`
"fails if fewer column-chunk descriptors were filled than the schema
declares columns" and otherwise finalizes the slot with the byte total. -/
def RowGroupMetaDataBuilder.Finish (m : RowGroupMetaDataBuilder)
    (totalBytes : Int) : RowGroupMetaDataBuilder × Option ParquetError :=
  if m.currentColumn < m.numColumns then
    (m, some .incompleteRowGroup)
  else
    ({ m with finishedTotalBytes := some totalBytes }, none)

/-- Modelled from the spec: a column write session ("accepts a sequence of
row values and, on close, reports total rows written and total bytes written
for that column"; `column_writer.cc` is not under `src/`). `rows_written`
grows as batches are written; `Close()` returns `bytesWritten`. -/
structure ColumnWriterState where
  rows_written : Int
  bytesWritten : Int
  deriving DecidableEq, Repr

/-- Modelled from the spec: writing a batch of values to the open column
session increases its reported `rows_written` (and byte count). -/
def ColumnWriterState.writeBatch (w : ColumnWriterState) (rows bytes : Int) :
    ColumnWriterState :=
  { w with rows_written := w.rows_written + rows,
           bytesWritten := w.bytesWritten + bytes }

/-- State of `RowGroupSerializer` (file_writer.cc lines 62-145): sink pointer
omitted (bytes the columns write are outside this core), the rest of the
fields transcribed. `numRows` is the C++ `num_rows_`, initialized to `-1`
meaning "no column has closed yet". -/
structure RowGroupSerializer where
  metadata : RowGroupMetaDataBuilder
  totalBytesWritten : Int
  closed : Bool
  currentColumnIndex : Nat
  numRows : Int
  currentColumnWriter : Option ColumnWriterState
  deriving DecidableEq, Repr

/-- A fresh `RowGroupSerializer` as built by its constructor (lines 64-72)
for a schema with `numColumns` leaf columns. -/
def RowGroupSerializer.mk0 (numColumns : Nat) : RowGroupSerializer where
  metadata := ⟨numColumns, 0, none, none⟩
  totalBytesWritten := 0
  closed := false
  currentColumnIndex := 0
  numRows := -1
  currentColumnWriter := none

/-- `RowGroupSerializer::CheckRowsWritten` (lines 131-142): the first column
to be checked sets `num_rows_` and records it into the metadata; afterwards
any differing count throws, naming `current_column_index_` and both counts.
`w` is the value of `current_column_writer_`. -/
def RowGroupSerializer.CheckRowsWritten (s : RowGroupSerializer)
    (w : ColumnWriterState) : RowGroupSerializer × Option ParquetError :=
  let currentRows := w.rows_written
  if s.numRows < 0 then
    ({ s with numRows := currentRows,
              metadata := s.metadata.set_num_rows currentRows }, none)
  else if s.numRows ≠ currentRows then
    (s, some (.dataIntegrity s.currentColumnIndex currentRows s.numRows))
  else
    (s, none)

/-- The check-if-a-column-is-open step shared by `NextColumn`, `Close` and
`num_rows`: `if (current_column_writer_) CheckRowsWritten();`. -/
def RowGroupSerializer.checkIfOpen (s : RowGroupSerializer) :
    RowGroupSerializer × Option ParquetError :=
  match s.currentColumnWriter with
  | some w => s.CheckRowsWritten w
  | none => (s, none)

/-- `RowGroupSerializer::NextColumn` (lines 83-103): check the open column's
row count, claim the next column-chunk slot (throws when past the last
schema column), close the open column folding its bytes into the group
total, bump `current_column_index_`, and open a fresh column session. -/
def RowGroupSerializer.NextColumn (s : RowGroupSerializer) :
    RowGroupSerializer × Option ParquetError :=
  match s.checkIfOpen with
  | (s1, some e) => (s1, some e)
  | (s1, none) =>
    match s1.metadata.NextColumnChunk with
    | (_, some e) => (s1, some e)
    | (md, none) =>
      let s2 := { s1 with metadata := md }
      let s3 :=
        match s2.currentColumnWriter with
        | some w =>
          { s2 with totalBytesWritten := s2.totalBytesWritten + w.bytesWritten }
        | none => s2
      ({ s3 with currentColumnIndex := s3.currentColumnIndex + 1,
                 currentColumnWriter := some ⟨0, 0⟩ }, none)

/-- The body of `RowGroupSerializer::Close` once `closed_` has been set
(lines 110-118): close any open column (after the row-count check), fold its
bytes into the group total, and finish the metadata slot. -/
def RowGroupSerializer.closeBody (s0 : RowGroupSerializer) :
    RowGroupSerializer × Option ParquetError :=
  match s0.checkIfOpen with
  | (s1, some e) => (s1, some e)
  | (s1, none) =>
    let s2 :=
      match s1.currentColumnWriter with
      | some w =>
        { s1 with
          totalBytesWritten := s1.totalBytesWritten + w.bytesWritten,
          currentColumnWriter := none }
      | none => s1
    match s2.metadata.Finish s2.totalBytesWritten with
    | (_, some e) => (s2, some e)
    | (md, none) => ({ s2 with metadata := md }, none)

/-- `RowGroupSerializer::Close` (lines 107-120): a no-op when already
closed; otherwise marks the group closed and runs the close body. Note the
C++ sets `closed_ = true` before the steps that can throw. -/
def RowGroupSerializer.Close (s : RowGroupSerializer) :
    RowGroupSerializer × Option ParquetError :=
  if s.closed then (s, none)
  else RowGroupSerializer.closeBody { s with closed := true }

/-- `RowGroupSerializer::num_rows` (lines 76-81): if a column is open, run
the row-count check first (this can record a count or throw); then return
`num_rows_`, or `0` when no column has closed yet. The returned pair is
(post-state and thrown error, returned value). -/
def RowGroupSerializer.num_rows (s : RowGroupSerializer) :
    (RowGroupSerializer × Option ParquetError) × Int :=
  match s.checkIfOpen with
  | (s1, some e) => ((s1, some e), 0)
  | (s1, none) => ((s1, none), if s1.numRows < 0 then 0 else s1.numRows)

/-- Writing a batch to the currently open column session of a row group
(pure: only the session's counters change). -/
def RowGroupSerializer.writeBatch (s : RowGroupSerializer) (rows bytes : Int) :
    RowGroupSerializer :=
  { s with currentColumnWriter :=
      s.currentColumnWriter.map (fun w => w.writeBatch rows bytes) }

/-- The 4-byte magic marker `PARQUET_MAGIC = {'P','A','R','1'}`
(file_writer.cc line 34), as bytes. -/
def PARQUET_MAGIC : List Nat := [80, 65, 82, 49]

/-- The four bytes of a `uint32_t` value as written to the sink by
`sink_->Write(reinterpret_cast<uint8_t*>(&metadata_len), 4)` on a
little-endian machine. -/
def le32 (n : Nat) : List Nat :=
  [n % 256, n / 256 % 256, n / 65536 % 256, n / 16777216 % 256]

/-- Decoding of a 4-byte little-endian field (how a reader recovers the
footer length). -/
def leDecode4 : List Nat → Nat
  | [a, b, c, d] => a + 256 * b + 65536 * c + 16777216 * d
  | _ => 0

/-- `uint32_t` truncation. -/
def u32 (n : Nat) : Nat := n % 2 ^ 32

/-- `uint32_t` subtraction `a - b` (wrapping). -/
def u32sub (a b : Nat) : Nat := (2 ^ 32 + u32 a - u32 b) % 2 ^ 32

/-- The sink effect of `FileSerializer::WriteMetaData` (lines 239-251) given
the serialized footer representation `footer` produced by
`metadata_->Finish()`: record the position, write the footer bytes, write
the 4-byte length field (position delta in `uint32_t` arithmetic), write the
magic marker. -/
def writeFooterTail (sink footer : List Nat) : List Nat :=
  let beforePos := u32 sink.length
  let sink2 := sink ++ footer
  let metadataLen := u32sub sink2.length beforePos
  sink2 ++ le32 metadataLen ++ PARQUET_MAGIC

/-- State of `FileSerializer` (lines 153-252). The sink is embedded as its
byte contents plus a closed flag; `numColumns` stands for
`schema_.num_columns()`. The file-level `FileMetaDataBuilder` contents are
not tracked here (its `Finish()` output is passed in at close, see
`FileSerializer.CloseCore`). -/
structure FileSerializer where
  sink : List Nat
  sinkClosed : Bool
  isOpen : Bool
  numRowGroups : Nat
  numRows : Int
  rowGroupWriter : Option RowGroupSerializer
  numColumns : Nat
  deriving DecidableEq, Repr

/-- `FileSerializer`'s constructor (lines 212-224): fields initialized, then
`StartFile()` writes the 4-byte magic marker as the first sink bytes. -/
def FileSerializer.openFile (numColumns : Nat) : FileSerializer where
  sink := PARQUET_MAGIC
  sinkClosed := false
  isOpen := true
  numRowGroups := 0
  numRows := 0
  rowGroupWriter := none
  numColumns := numColumns

/-- The tail of `FileSerializer::AppendRowGroup` (lines 195-200) once any
previous row group is closed: bump `num_row_groups_`, take a fresh metadata
slot, and install a fresh `RowGroupSerializer`. Note `num_rows_` is not
touched. -/
def FileSerializer.appendFresh (s : FileSerializer) :
    FileSerializer × Option ParquetError :=
  ({ s with numRowGroups := s.numRowGroups + 1,
            rowGroupWriter := some (RowGroupSerializer.mk0 s.numColumns) },
   none)

/-- `FileSerializer::AppendRowGroup` (lines 191-201): if a row group writer
is live, close it (its row count is not folded anywhere), then open a fresh
one. -/
def FileSerializer.AppendRowGroup (s : FileSerializer) :
    FileSerializer × Option ParquetError :=
  match s.rowGroupWriter with
  | some rg =>
    match rg.Close with
    | (rg', some e) => ({ s with rowGroupWriter := some rg' }, some e)
    | (_, none) => s.appendFresh
  | none => s.appendFresh

/-- The footer-writing and sink-closing tail of `FileSerializer::Close`
(lines 173-177), after the row-group writer has been reset. `finish` is the
outcome of `metadata_->Finish()` / `WriteTo` (the serialized footer bytes,
or the error thrown while producing or writing them). -/
def FileSerializer.closeTail (s : FileSerializer)
    (finish : Except ParquetError (List Nat)) :
    FileSerializer × Option ParquetError :=
  match finish with
  | .error e => (s, some e)
  | .ok footer =>
    ({ s with sink := writeFooterTail s.sink footer,
              sinkClosed := true, isOpen := false }, none)

/-- `FileSerializer::Close` (lines 165-179) with the thrown exception made
explicit in the result: no-op when `is_open_` is already false; otherwise
fold the live row group's `num_rows()` into `num_rows_`, close it, reset the
writer, write the footer (`WriteMetaData`), close the sink, and clear
`is_open_`. An exception leaves the fields as they were at the throw
point (in particular `is_open_` stays true). -/
def FileSerializer.CloseCore (s : FileSerializer)
    (finish : Except ParquetError (List Nat)) :
    FileSerializer × Option ParquetError :=
  if s.isOpen then
    match s.rowGroupWriter with
    | some rg =>
      match rg.num_rows with
      | ((rg1, some e), _) => ({ s with rowGroupWriter := some rg1 }, some e)
      | ((rg1, none), n) =>
        let s1 := { s with numRows := s.numRows + n }
        match rg1.Close with
        | (rg2, some e) => ({ s1 with rowGroupWriter := some rg2 }, some e)
        | (_, none) => FileSerializer.closeTail { s1 with rowGroupWriter := none } finish
    | none => FileSerializer.closeTail { s with rowGroupWriter := none } finish
  else (s, none)

/-- `ParquetFileWriter::Close` as seen by the caller: the exception, if any,
propagates. -/
def FileSerializer.ClosePublic (s : FileSerializer)
    (finish : Except ParquetError (List Nat)) :
    Except ParquetError FileSerializer :=
  match s.CloseCore finish with
  | (s', none) => .ok s'
  | (_, some e) => .error e

/-- `FileSerializer::~FileSerializer` / `ParquetFileWriter::~ParquetFileWriter`
(lines 203-208, 351-356): `try { Close(); } catch (...) {}` — the implicit
close runs, and any exception it throws is caught and discarded, never
surfacing to the caller. -/
def FileSerializer.destruct (s : FileSerializer)
    (finish : Except ParquetError (List Nat)) :
    Except ParquetError FileSerializer :=
  match s.CloseCore finish with
  | (s', none) => .ok s'
  | (s', some _) => .ok s'

/-- `ParquetFileWriter::AppendRowGroup()` (lines 418-420): delegates to the
contents' `AppendRowGroup`. -/
def ParquetFileWriterAppendRowGroup (s : FileSerializer) :
    FileSerializer × Option ParquetError :=
  s.AppendRowGroup

/-- `ParquetFileWriter::AppendRowGroup(int64_t num_rows)` (lines 422-424):
`return AppendRowGroup();` — the argument is discarded. -/
def ParquetFileWriterAppendRowGroupWithRows (numRows : Int)
    (s : FileSerializer) : FileSerializer × Option ParquetError :=
  ParquetFileWriterAppendRowGroup s

/-- Sequencing under exception propagation: run `f` unless an exception is
already in flight. -/
def pstep {σ : Type} (r : σ × Option ParquetError)
    (f : σ → σ × Option ParquetError) : σ × Option ParquetError :=
  match r with
  | (s, some e) => (s, some e)
  | (s, none) => f s

/-- Sequencing a pure step under exception propagation. -/
def pmap {σ : Type} (r : σ × Option ParquetError) (f : σ → σ) :
    σ × Option ParquetError :=
  match r with
  | (s, some e) => (s, some e)
  | (s, none) => (f s, none)

/-- A caller-side operation on the live row group writer of the file
(the caller holds the `RowGroupWriter*` returned by `AppendRowGroup`; its
state lives inside the file writer). No-op if no group is live. -/
def FileSerializer.onRowGroup (s : FileSerializer)
    (f : RowGroupSerializer → RowGroupSerializer × Option ParquetError) :
    FileSerializer × Option ParquetError :=
  match s.rowGroupWriter with
  | none => (s, none)
  | some rg =>
    match f rg with
    | (rg', e) => ({ s with rowGroupWriter := some rg' }, e)

/-- Writing a batch to the open column of the live row group, at file
level. -/
def FileSerializer.writeBatch (s : FileSerializer) (rows bytes : Int) :
    FileSerializer :=
  { s with rowGroupWriter := s.rowGroupWriter.map (·.writeBatch rows bytes) }

/-- `format::KeyValue`: one key-value side-metadata entry of the Thrift
footer, with its `__isset.value` flag. -/
structure KeyValue where
  key : String
  value : String
  isset_value : Bool
  deriving DecidableEq, Repr

/-- A row-group descriptor of the Thrift footer (`format::RowGroup`): the
append-merge code moves descriptors around verbatim, so only the fields the
claims observe are carried. -/
structure RowGroupMD where
  num_rows : Int
  total_byte_size : Int
  deriving DecidableEq, Repr

/-- The Thrift `format::FileMetaData` fields that
`ZdbFileSerializer::WriteMetaData` reads and writes: the row-group
descriptor list, the total row count, the key-value side metadata and its
`__isset` flag. -/
structure FormatFileMetaData where
  row_groups : List RowGroupMD
  num_rows : Int
  key_value_metadata : List KeyValue
  isset_key_value_metadata : Bool
  deriving DecidableEq, Repr

/-- `std::map<std::string, std::string>::insert` on a key-sorted association
list: the map keeps its entries ordered by key, and inserting an already
present key leaves the existing entry unchanged (insert does not
overwrite). -/
def kvMapInsert (k v : String) : List (String × String) → List (String × String)
  | [] => [(k, v)]
  | (k', v') :: rest =>
    if k < k' then (k, v) :: (k', v') :: rest
    else if k = k' then (k', v') :: rest
    else (k', v') :: kvMapInsert k v rest

/-- Folding a footer's `key_value_metadata` entries into the working
`std::map` via `std::transform(..., std::inserter(kv_meta, ...))`
(file_writer.cc lines 288-299). -/
def kvInsertAll (entries : List KeyValue) (m : List (String × String)) :
    List (String × String) :=
  entries.foldl (fun acc kv => kvMapInsert kv.key kv.value acc) m

/-- The working map built by `ZdbFileSerializer::WriteMetaData`: old
entries inserted first, then the new run's entries. -/
def kvMergedMap (oldEntries newEntries : List KeyValue) :
    List (String × String) :=
  kvInsertAll newEntries (kvInsertAll oldEntries [])

/-- The metadata surgery of `ZdbFileSerializer::WriteMetaData` (lines
278-317): prepend the old footer's row groups, add the old total row count,
rebuild `key_value_metadata` from the merged `std::map` (in map order, each
entry with `__isset.value = true`), and set the footer's
`__isset.key_value_metadata` flag iff the merged list is non-empty. -/
def ZdbMergeMetaData (oldMeta target : FormatFileMetaData) :
    FormatFileMetaData :=
  let merged := kvMergedMap oldMeta.key_value_metadata target.key_value_metadata
  { row_groups := oldMeta.row_groups ++ target.row_groups
    num_rows := target.num_rows + oldMeta.num_rows
    key_value_metadata := merged.map (fun p => ⟨p.1, p.2, true⟩)
    isset_key_value_metadata := !merged.isEmpty }

/-- Sink bytes written by `ZdbFileSerializer::WriteMetaData` (lines
270-327): serialize the merged footer, then the 4-byte length field and the
magic marker, exactly as the plain path does. `serializedMerged` stands for
the bytes `FileMetaData::Make(metadata_target)->WriteTo(sink)` emits. -/
def ZdbWriteMetaDataBytes (sink serializedMerged : List Nat) : List Nat :=
  writeFooterTail sink serializedMerged

/-- Sink contents right after constructing a `ZdbFileSerializer` (lines
329-339): the base `FileSerializer` constructor always runs `StartFile()`
(writing the magic marker); the derived constructor runs `StartFile()` a
second time when `old_file_meta` is null. -/
def ZdbConstructSink (old_file_meta : Option FormatFileMetaData) : List Nat :=
  if old_file_meta.isNone then PARQUET_MAGIC ++ PARQUET_MAGIC
  else PARQUET_MAGIC

/-- Scenario for a row group over a two-column schema: open column 0, write
`a` rows, open column 1 (closing column 0), write `b` rows, close the
group. -/
def rgTwoColumnRun (a b : Int) : RowGroupSerializer × Option ParquetError :=
  let r1 := (RowGroupSerializer.mk0 2).NextColumn
  let r2 := pmap r1 (fun s => s.writeBatch a 7)
  let r3 := pstep r2 RowGroupSerializer.NextColumn
  let r4 := pmap r3 (fun s => s.writeBatch b 7)
  pstep r4 RowGroupSerializer.Close

/-- Scenario for a row group over a one-column schema in which `num_rows()`
is queried while the only column is still open: open column 0, write `a`
rows, call `num_rows()`, write `b` further rows, close the group. The
second component is the value `num_rows()` returned. -/
def rgNumRowsMidColumnRun (a b : Int) :
    (RowGroupSerializer × Option ParquetError) × Int :=
  let r1 := (RowGroupSerializer.mk0 1).NextColumn
  let r2 := pmap r1 (fun s => s.writeBatch a 7)
  match r2 with
  | (s, some e) => ((s, some e), 0)
  | (s, none) =>
    match s.num_rows with
    | ((s1, some e), v) => ((s1, some e), v)
    | ((s1, none), v) =>
      let s2 := s1.writeBatch b 7
      (s2.Close, v)

/-- Scenario for a whole file over a one-column schema with two row groups:
append a row group, write `a` rows into its column, append a second row
group (which closes the first), write `b` rows into its column, and close
the file (with an empty serialized footer, which `num_rows` bookkeeping
never looks at). -/
def fileTwoGroupsRun (a b : Int) : FileSerializer × Option ParquetError :=
  let r1 := (FileSerializer.openFile 1).AppendRowGroup
  let r2 := pstep r1 (fun s => s.onRowGroup RowGroupSerializer.NextColumn)
  let r3 := pmap r2 (fun s => s.writeBatch a 7)
  let r4 := pstep r3 FileSerializer.AppendRowGroup
  let r5 := pstep r4 (fun s => s.onRowGroup RowGroupSerializer.NextColumn)
  let r6 := pmap r5 (fun s => s.writeBatch b 7)
  pstep r6 (fun s => s.CloseCore (.ok []))

/-- First-occurrence lookup in a key-value entry list (also how a reader
finds a key among the footer entries). -/
def kvFindValue : List KeyValue → String → Option String
  | [], _ => none
  | kv :: rest, k => if kv.key = k then some kv.value else kvFindValue rest k

/-- First-occurrence lookup in the working map. -/
def kvLookup : List (String × String) → String → Option String
  | [], _ => none
  | (k', v') :: rest, k => if k' = k then some v' else kvLookup rest k

/-- The working map is sorted strictly by key (the `std::map` invariant). -/
def kvSorted (m : List (String × String)) : Prop :=
  m.Pairwise (fun p q => p.1 < q.1)

theorem kvLookup_eq_none (m : List (String × String)) (k : String)
    (h : ∀ p ∈ m, p.1 ≠ k) : kvLookup m k = none := by
  induction m with
  | nil => rfl
  | cons p rest ih =>
    obtain ⟨k', v'⟩ := p
    simp only [kvLookup]
    rw [if_neg (h _ (List.mem_cons_self _ _))]
    exact ih (fun q hq => h q (List.mem_cons_of_mem _ hq))

theorem kvMapInsert_mem (k v : String) (m : List (String × String))
    (p : String × String) (hp : p ∈ kvMapInsert k v m) :
    p = (k, v) ∨ p ∈ m := by
  induction m with
  | nil => simpa [kvMapInsert] using hp
  | cons q rest ih =>
    obtain ⟨k', v'⟩ := q
    simp only [kvMapInsert] at hp
    by_cases h1 : k < k'
    · rw [if_pos h1] at hp
      rcases List.mem_cons.1 hp with h | h
      · exact Or.inl h
      · exact Or.inr h
    · rw [if_neg h1] at hp
      by_cases h2 : k = k'
      · rw [if_pos h2] at hp
        exact Or.inr hp
      · rw [if_neg h2] at hp
        rcases List.mem_cons.1 hp with h | h
        · rw [h]
          exact Or.inr (List.mem_cons_self _ _)
        · rcases ih h with h' | h'
          · exact Or.inl h'
          · exact Or.inr (List.mem_cons_of_mem _ h')

theorem kvSorted_insert (k v : String) (m : List (String × String))
    (h : kvSorted m) : kvSorted (kvMapInsert k v m) := by
  induction m with
  | nil => simp [kvMapInsert, kvSorted]
  | cons q rest ih =>
    obtain ⟨k', v'⟩ := q
    rw [kvSorted, List.pairwise_cons] at h
    obtain ⟨hlt, hrest⟩ := h
    simp only [kvMapInsert]
    by_cases h1 : k < k'
    · rw [if_pos h1]
      rw [kvSorted, List.pairwise_cons]
      refine ⟨fun q hq => ?_, List.pairwise_cons.2 ⟨hlt, hrest⟩⟩
      rcases List.mem_cons.1 hq with h | h
      · rw [h]
        exact h1
      · exact lt_trans h1 (hlt _ h)
    · rw [if_neg h1]
      by_cases h2 : k = k'
      · rw [if_pos h2]
        exact List.pairwise_cons.2 ⟨hlt, hrest⟩
      · rw [if_neg h2]
        rw [kvSorted, List.pairwise_cons]
        refine ⟨fun q hq => ?_, ih hrest⟩
        rcases kvMapInsert_mem _ _ _ _ hq with h | h
        · rw [h]
          rcases lt_trichotomy k k' with h' | h' | h'
          · exact absurd h' h1
          · exact absurd h' h2
          · exact h'
        · exact hlt _ h

theorem kvLookup_insert_self (k v : String) (m : List (String × String))
    (h : kvSorted m) :
    kvLookup (kvMapInsert k v m) k = some ((kvLookup m k).getD v) := by
  induction m with
  | nil => simp [kvMapInsert, kvLookup]
  | cons q rest ih =>
    obtain ⟨k', v'⟩ := q
    rw [kvSorted, List.pairwise_cons] at h
    obtain ⟨hlt, hrest⟩ := h
    simp only [kvMapInsert]
    by_cases h1 : k < k'
    · rw [if_pos h1]
      have habs : kvLookup ((k', v') :: rest) k = none := by
        apply kvLookup_eq_none
        intro p hp
        rcases List.mem_cons.1 hp with hpe | hpe
        · rw [hpe]
          exact ne_of_gt h1
        · exact ne_of_gt (lt_trans h1 (hlt _ hpe))
      rw [habs]
      simp [kvLookup]
    · rw [if_neg h1]
      by_cases h2 : k = k'
      · rw [if_pos h2]
        simp only [kvLookup, if_pos h2.symm]
        rfl
      · rw [if_neg h2]
        have hne : k' ≠ k := fun hc => h2 hc.symm
        simp only [kvLookup, if_neg hne]
        exact ih hrest

theorem kvLookup_insert_ne (k v k' : String) (m : List (String × String))
    (hne : k ≠ k') :
    kvLookup (kvMapInsert k v m) k' = kvLookup m k' := by
  induction m with
  | nil => simp [kvMapInsert, kvLookup, hne]
  | cons q rest ih =>
    obtain ⟨k₀, v₀⟩ := q
    simp only [kvMapInsert]
    by_cases h1 : k < k₀
    · rw [if_pos h1]
      simp only [kvLookup, if_neg hne]
    · rw [if_neg h1]
      by_cases h2 : k = k₀
      · rw [if_pos h2]
      · rw [if_neg h2]
        simp only [kvLookup]
        by_cases h3 : k₀ = k'
        · rw [if_pos h3, if_pos h3]
        · rw [if_neg h3, if_neg h3]
          exact ih

theorem kvSorted_insertAll (entries : List KeyValue)
    (m : List (String × String)) (h : kvSorted m) :
    kvSorted (kvInsertAll entries m) := by
  induction entries generalizing m with
  | nil => exact h
  | cons kv rest ih =>
    simp only [kvInsertAll, List.foldl_cons] at *
    exact ih _ (kvSorted_insert _ _ _ h)

theorem kvLookup_insertAll (entries : List KeyValue)
    (m : List (String × String)) (k : String) (h : kvSorted m) :
    kvLookup (kvInsertAll entries m) k =
      (kvLookup m k).orElse (fun _ => kvFindValue entries k) := by
  induction entries generalizing m with
  | nil =>
    simp only [kvInsertAll, List.foldl_nil, kvFindValue]
    cases kvLookup m k <;> rfl
  | cons kv rest ih =>
    simp only [kvInsertAll, List.foldl_cons] at *
    rw [ih _ (kvSorted_insert _ _ _ h)]
    by_cases hk : kv.key = k
    · subst hk
      rw [kvLookup_insert_self _ _ _ h]
      simp only [kvFindValue, if_pos rfl]
      cases kvLookup m kv.key <;> rfl
    · rw [kvLookup_insert_ne _ _ _ _ hk]
      simp only [kvFindValue, if_neg hk]

theorem kvSorted_nil : kvSorted [] := List.Pairwise.nil

theorem kvMergedMap_lookup (oldEntries newEntries : List KeyValue)
    (k : String) :
    kvLookup (kvMergedMap oldEntries newEntries) k =
      (kvFindValue oldEntries k).orElse (fun _ => kvFindValue newEntries k) := by
  rw [kvMergedMap, kvLookup_insertAll _ _ _ (kvSorted_insertAll _ _ kvSorted_nil),
      kvLookup_insertAll _ _ _ kvSorted_nil]
  cases kvFindValue oldEntries k <;> rfl

theorem kvFindValue_map_mk (m : List (String × String)) (k : String) :
    kvFindValue (m.map (fun p => KeyValue.mk p.1 p.2 true)) k = kvLookup m k := by
  induction m with
  | nil => rfl
  | cons p rest ih =>
    obtain ⟨k', v'⟩ := p
    simp only [List.map_cons, kvFindValue, kvLookup]
    by_cases h : k' = k
    · rw [if_pos h, if_pos h]
    · rw [if_neg h, if_neg h]
      exact ih

theorem kvMapInsert_ne_nil (k v : String) (m : List (String × String)) :
    kvMapInsert k v m ≠ [] := by
  cases m with
  | nil => simp [kvMapInsert]
  | cons q rest =>
    obtain ⟨k', v'⟩ := q
    simp only [kvMapInsert]
    by_cases h1 : k < k'
    · rw [if_pos h1]
      simp
    · rw [if_neg h1]
      by_cases h2 : k = k'
      · rw [if_pos h2]
        simp
      · rw [if_neg h2]
        simp

theorem kvInsertAll_eq_nil_iff (entries : List KeyValue)
    (m : List (String × String)) :
    kvInsertAll entries m = [] ↔ entries = [] ∧ m = [] := by
  induction entries generalizing m with
  | nil => simp [kvInsertAll]
  | cons kv rest ih =>
    simp only [kvInsertAll, List.foldl_cons] at *
    rw [ih]
    simp [kvMapInsert_ne_nil]

theorem kvMergedMap_eq_nil_iff (oldEntries newEntries : List KeyValue) :
    kvMergedMap oldEntries newEntries = [] ↔
      oldEntries = [] ∧ newEntries = [] := by
  rw [kvMergedMap, kvInsertAll_eq_nil_iff, kvInsertAll_eq_nil_iff]
  tauto

/-- `checkIfOpen` never changes the `closed` flag (`CheckRowsWritten` only
touches `num_rows_` and the metadata). -/
theorem checkIfOpen_closed (s : RowGroupSerializer) :
    (s.checkIfOpen).1.closed = s.closed := by
  rcases s with ⟨md, tb, cl, idx, nr, w⟩
  cases w with
  | none => rfl
  | some w0 =>
    simp only [RowGroupSerializer.checkIfOpen,
      RowGroupSerializer.CheckRowsWritten]
    split
    · rfl
    · split <;> rfl

/-- Every exit of the close body keeps the `closed` flag it entered with. -/
theorem closeBody_closed (s0 : RowGroupSerializer) :
    ((s0.closeBody).1).closed = s0.closed := by
  rw [RowGroupSerializer.closeBody]
  rcases hck : s0.checkIfOpen with ⟨s1, e1⟩
  have h1 : s1.closed = s0.closed := by
    rw [← checkIfOpen_closed s0, hck]
  cases e1 with
  | some e => exact h1
  | none =>
    dsimp only
    rcases s1.currentColumnWriter with _ | w <;> dsimp only <;>
      rcases RowGroupMetaDataBuilder.Finish _ _ with ⟨md2, _ | e2⟩ <;>
        simp_all

/-- A successful `RowGroupSerializer::Close` leaves a state on which `Close`
is a no-op. -/
theorem rg_Close_idem (g g' : RowGroupSerializer) (h : g.Close = (g', none)) :
    g'.Close = (g', none) := by
  have hcl : g'.closed = true := by
    by_cases hc : g.closed = true
    · rw [RowGroupSerializer.Close, if_pos hc] at h
      cases h
      exact hc
    · rw [RowGroupSerializer.Close, if_neg hc] at h
      have hb := closeBody_closed { g with closed := true }
      rw [h] at hb
      exact hb
  rw [RowGroupSerializer.Close, if_pos hcl]

/-- A successful footer-write tail ends with `is_open_` cleared. -/
theorem closeTail_isOpen (s0 s' : FileSerializer)
    (fin : Except ParquetError (List Nat))
    (h : s0.closeTail fin = (s', none)) : s'.isOpen = false := by
  cases fin with
  | error e => simp [FileSerializer.closeTail] at h
  | ok footer =>
    rw [FileSerializer.closeTail] at h
    cases h
    rfl

/-- A `FileSerializer::Close` that returns without throwing leaves
`is_open_` false. -/
theorem CloseCore_isOpen (s s' : FileSerializer)
    (fin : Except ParquetError (List Nat))
    (h : s.CloseCore fin = (s', none)) : s'.isOpen = false := by
  rw [FileSerializer.CloseCore] at h
  split at h
  · split at h
    · split at h
      · simp at h
      · dsimp only at h
        split at h
        · simp at h
        · exact closeTail_isOpen _ _ _ h
    · exact closeTail_isOpen _ _ _ h
  · rename_i hopen
    cases h
    simpa using hopen

/-- A successful `FileSerializer::Close` leaves a state on which every
further `Close` is a no-op, whatever footer bytes a second close would
have produced. -/
theorem file_CloseCore_idem (s s' : FileSerializer)
    (fin fin2 : Except ParquetError (List Nat))
    (h : s.CloseCore fin = (s', none)) : s'.CloseCore fin2 = (s', none) := by
  have hcl : s'.isOpen = false := CloseCore_isOpen _ _ _ h
  rw [FileSerializer.CloseCore, if_neg (by simp [hcl])]

/-- The `uint32_t` length-field arithmetic recovers the footer byte count
exactly (positions only enter through their low 32 bits). -/
theorem u32sub_lengths (s f : Nat) (hf : f < 2 ^ 32) :
    u32sub (s + f) (u32 s) = f := by
  simp only [u32sub, u32]
  omega

/-- Little-endian 4-byte round trip for values below `2 ^ 32`. -/
theorem leDecode4_le32 (n : Nat) (h : n < 2 ^ 32) : leDecode4 (le32 n) = n := by
  simp only [le32, leDecode4]
  omega

/-- Claim C1: the spec says a file with two row groups of 100 and 50 rows
reports num_rows() == 150 after Close, with AppendRowGroup folding the
closed group's count into the running total. The code does not fold:
running the two-group scenario, the file closes without error, reports two
row groups, but num_rows() is 50 — only the last open group's count is
added (during Close), so the claimed total of 150 is not reached. -/
theorem C1_two_row_groups_num_rows_is_last_group_only :
    (fileTwoGroupsRun 100 50).2 = none ∧
    (fileTwoGroupsRun 100 50).1.numRowGroups = 2 ∧
    (fileTwoGroupsRun 100 50).1.numRows = 50 ∧
    (fileTwoGroupsRun 100 50).1.numRows ≠ 150 := by
  decide

/-- Claim C2 (counterexample): at the spec's own example — old side metadata
{a: 1}, new side metadata {a: 2, b: 3} — the merged footer carries value "1"
for key "a" (the old file's value), not "2" as the claim states: the
`std::transform`/`std::inserter` pipeline uses `std::map::insert`, which
never overwrites, so with old entries inserted first the old value wins. -/
theorem C2_new_value_wins_counterexample :
    kvFindValue
      (ZdbMergeMetaData
        (FormatFileMetaData.mk [RowGroupMD.mk 80 1000] 80
          [KeyValue.mk "a" "1" true] true)
        (FormatFileMetaData.mk [RowGroupMD.mk 20 500] 20
          [KeyValue.mk "a" "2" true, KeyValue.mk "b" "3" true] true)).key_value_metadata
      "a" = some "1" ∧ (some "1" : Option String) ≠ some "2" := by
  constructor
  · show kvFindValue ((kvMergedMap [KeyValue.mk "a" "1" true]
      [KeyValue.mk "a" "2" true, KeyValue.mk "b" "3" true]).map
        (fun p => KeyValue.mk p.1 p.2 true)) "a" = some "1"
    rw [kvFindValue_map_mk, kvMergedMap_lookup]
    decide
  · decide

/-- Claim C2 (amended): in append-merge mode the merged footer's side
metadata is the key-by-key union of the old footer's mapping and this run's
mapping, but on a colliding key the OLD file's value is retained (old
entries are inserted first and `std::map::insert` does not overwrite);
non-colliding keys from either side are retained: for every key, the merged
value is the old footer's first entry for that key, or failing that this
run's first entry for it. -/
theorem C2_merged_kv_old_value_wins (oldMeta target : FormatFileMetaData)
    (k : String) :
    kvFindValue (ZdbMergeMetaData oldMeta target).key_value_metadata k =
      (kvFindValue oldMeta.key_value_metadata k).orElse
        (fun _ => kvFindValue target.key_value_metadata k) := by
  show kvFindValue
      ((kvMergedMap oldMeta.key_value_metadata target.key_value_metadata).map
        (fun p => KeyValue.mk p.1 p.2 true)) k = _
  rw [kvFindValue_map_mk, kvMergedMap_lookup]

/-- Claim C3 (counterexample): after column 0 closes with 100 rows, closing
column 1 with 99 rows does raise the row-count error with expected 100 and
actual 99, but it names column index 2 — `current_column_index_` was already
incremented past the offending column — not index 1 as the claim states. -/
theorem C3_error_names_index_2_counterexample :
    (rgTwoColumnRun 100 99).2 =
      some (ParquetError.dataIntegrity 2 99 100) ∧ (2 : Nat) ≠ 1 := by
  decide

/-- Claim C3 (amended): within one row group, the first column to close
fixes the group's authoritative row count and records it into the row-group
metadata; a subsequently closing column with a differing count (strict
equality) raises the integrity error carrying both counts, but identifying
the offending column by `current_column_index_`, which at that point is the
offending column's zero-based index plus one (index 2 when column 1 of a
two-column group disagrees). -/
theorem C3_row_count_mismatch_amended (a b : Int) (ha : 0 ≤ a)
    (hne : a ≠ b) :
    (rgTwoColumnRun a b).2 = some (.dataIntegrity 2 b a) ∧
    (rgTwoColumnRun a b).1.numRows = a ∧
    (rgTwoColumnRun a b).1.metadata.numRowsRecorded = some a := by
  have h1 : ¬ (a < 0) := not_lt.mpr ha
  simp [rgTwoColumnRun, pstep, pmap, RowGroupSerializer.mk0,
    RowGroupSerializer.NextColumn, RowGroupSerializer.Close,
    RowGroupSerializer.closeBody,
    RowGroupSerializer.checkIfOpen, RowGroupSerializer.CheckRowsWritten,
    RowGroupSerializer.writeBatch, RowGroupSerializer.num_rows,
    RowGroupMetaDataBuilder.NextColumnChunk, RowGroupMetaDataBuilder.Finish,
    RowGroupMetaDataBuilder.set_num_rows, ColumnWriterState.writeBatch,
    h1, hne]

/-- Claim C3 amended, witnessed at the spec's example counts 100 and 99. -/
theorem C3_row_count_mismatch_amended_witness :
    (0 : Int) ≤ 100 ∧ (100 : Int) ≠ 99 ∧
    ((rgTwoColumnRun 100 99).2 = some (.dataIntegrity 2 99 100) ∧
     (rgTwoColumnRun 100 99).1.numRows = 100 ∧
     (rgTwoColumnRun 100 99).1.metadata.numRowsRecorded = some 100) :=
  ⟨by decide, by decide,
   C3_row_count_mismatch_amended 100 99 (by decide) (by decide)⟩

/-- Claim C4: on closing a file in plain mode, the bytes emitted after the
last row-group payload are exactly the serialized footer, then a 4-byte
little-endian length field whose value is the sink position after the
footer write minus the position before it (the footer's byte count, in
`uint32_t` arithmetic), then the 4-byte magic marker; and the file's first
4 bytes, written by `StartFile` at open, are that same magic marker. -/
theorem C4_footer_layout (sink footer : List Nat) (numCols : Nat)
    (hlen : footer.length < 2 ^ 32) :
    writeFooterTail sink footer =
      sink ++ footer ++ le32 footer.length ++ PARQUET_MAGIC ∧
    leDecode4 (le32 footer.length) = footer.length ∧
    (le32 footer.length).length = 4 ∧
    (FileSerializer.openFile numCols).sink = PARQUET_MAGIC ∧
    PARQUET_MAGIC.length = 4 := by
  refine ⟨?_, leDecode4_le32 _ hlen, rfl, rfl, rfl⟩
  simp only [writeFooterTail, List.length_append]
  rw [u32sub_lengths _ _ hlen]

/-- Claim C4, witnessed on a concrete sink and 3-byte footer. -/
theorem C4_footer_layout_witness :
    ([9, 9, 9] : List Nat).length < 2 ^ 32 ∧
    (writeFooterTail [80, 65, 82, 49] [9, 9, 9] =
      [80, 65, 82, 49] ++ [9, 9, 9] ++
        le32 ([9, 9, 9] : List Nat).length ++ PARQUET_MAGIC ∧
     leDecode4 (le32 ([9, 9, 9] : List Nat).length) =
       ([9, 9, 9] : List Nat).length ∧
     (le32 ([9, 9, 9] : List Nat).length).length = 4 ∧
     (FileSerializer.openFile 1).sink = PARQUET_MAGIC ∧
     PARQUET_MAGIC.length = 4) :=
  ⟨by decide, C4_footer_layout [80, 65, 82, 49] [9, 9, 9] 1 (by decide)⟩

/-- Claim C5: in append-merge mode the merged footer's row-group list is
the old footer's list followed by the new run's list (in order), the merged
total row count is the new total plus the old total, and the merged footer
marks side metadata present exactly when the unioned key-value mapping is
non-empty — equivalently, when either input mapping is non-empty. -/
theorem C5_append_merge_structure (oldMeta target : FormatFileMetaData) :
    (ZdbMergeMetaData oldMeta target).row_groups =
      oldMeta.row_groups ++ target.row_groups ∧
    (ZdbMergeMetaData oldMeta target).num_rows =
      target.num_rows + oldMeta.num_rows ∧
    ((ZdbMergeMetaData oldMeta target).isset_key_value_metadata = true ↔
      kvMergedMap oldMeta.key_value_metadata target.key_value_metadata ≠ []) ∧
    (kvMergedMap oldMeta.key_value_metadata target.key_value_metadata = [] ↔
      oldMeta.key_value_metadata = [] ∧ target.key_value_metadata = []) := by
  refine ⟨rfl, rfl, ?_, kvMergedMap_eq_nil_iff _ _⟩
  show (!(kvMergedMap oldMeta.key_value_metadata
      target.key_value_metadata).isEmpty) = true ↔ _
  rw [Bool.not_eq_true', ← Bool.not_eq_true, List.isEmpty_iff]

/-- Claim C6: Close() on the file and Close() on a row group are
idempotent: once a close has succeeded, any further close is a no-op that
returns no error and leaves the state (sink bytes included) unchanged, so
the finalization side effects happen exactly once. -/
theorem C6_close_idempotent (s s' : FileSerializer)
    (g g' : RowGroupSerializer)
    (fin fin2 : Except ParquetError (List Nat))
    (hf : s.CloseCore fin = (s', none)) (hg : g.Close = (g', none)) :
    s'.CloseCore fin2 = (s', none) ∧ g'.Close = (g', none) :=
  ⟨file_CloseCore_idem _ _ _ _ hf, rg_Close_idem _ _ hg⟩

/-- Claim C6, witnessed on a freshly opened one-column file (closed once)
and a zero-column row group (closed once). -/
theorem C6_close_idempotent_witness :
    (FileSerializer.mk [80, 65, 82, 49, 0, 0, 0, 0, 80, 65, 82, 49]
        true false 0 0 none 1).CloseCore (.ok []) =
      (FileSerializer.mk [80, 65, 82, 49, 0, 0, 0, 0, 80, 65, 82, 49]
        true false 0 0 none 1, none) ∧
    (RowGroupSerializer.mk ⟨0, 0, none, some 0⟩ 0 true 0 (-1) none).Close =
      (RowGroupSerializer.mk ⟨0, 0, none, some 0⟩ 0 true 0 (-1) none, none) :=
  C6_close_idempotent (FileSerializer.openFile 1) _
    (RowGroupSerializer.mk0 0) _ (.ok []) (.ok [])
    (by decide) (by decide)

/-- Claim C7: an error raised while writing the footer during an explicit
Close() propagates to the caller as that very error, while the implicit
close run at destruction never lets an error escape (the destructor's
try/catch swallows it). -/
theorem C7_close_error_propagation (s : FileSerializer)
    (fin : Except ParquetError (List Nat)) (e : ParquetError)
    (hopen : s.isOpen = true) (hrg : s.rowGroupWriter = none) :
    (∃ s1, s.destruct fin = .ok s1) ∧
    s.ClosePublic (.error e) = .error e := by
  constructor
  · rw [FileSerializer.destruct]
    rcases s.CloseCore fin with ⟨s1, _ | e1⟩ <;> exact ⟨s1, rfl⟩
  · rw [FileSerializer.ClosePublic, FileSerializer.CloseCore,
      if_pos hopen, hrg]
    rfl

/-- Claim C7, witnessed on a freshly opened file whose footer write fails
with an I/O error. -/
theorem C7_close_error_propagation_witness :
    (∃ s1, (FileSerializer.openFile 1).destruct (.error .ioError) = .ok s1) ∧
    (FileSerializer.openFile 1).ClosePublic (.error .ioError) =
      .error .ioError :=
  C7_close_error_propagation (FileSerializer.openFile 1)
    (.error .ioError) .ioError (by decide) (by decide)

/-- Claim C8: `ParquetFileWriter::AppendRowGroup(int64_t)` discards its
argument and behaves identically to the no-argument overload, for every
argument value and every file state. -/
theorem C8_append_row_group_arg_ignored (n : Int) (s : FileSerializer) :
    ParquetFileWriterAppendRowGroupWithRows n s =
      ParquetFileWriterAppendRowGroup s :=
  rfl

/-- Claim C9: constructing the append serializer with a null old footer
writes the magic marker twice (once in the base constructor, once in the
derived one), leaving 8 magic bytes at the start of the sink; with a
non-null old footer the marker is written exactly once (4 bytes). -/
theorem C9_append_null_old_footer_double_magic :
    ZdbConstructSink none = PARQUET_MAGIC ++ PARQUET_MAGIC ∧
    (ZdbConstructSink none).length = 8 ∧
    ∀ m : FormatFileMetaData,
      ZdbConstructSink (some m) = PARQUET_MAGIC ∧
      (ZdbConstructSink (some m)).length = 4 :=
  ⟨rfl, rfl, fun _ => ⟨rfl, rfl⟩⟩

/-- Claim C10: querying num_rows() while the (first) column is still open
and no column has closed records the column's rows-written-so-far as the
group's authoritative count (returned, and written into the row-group
metadata); if that column then writes more rows before closing, its close
raises the row-count mismatch error even though no two columns ever
disagreed. -/
theorem C10_num_rows_mid_column_poisons_close (a b : Int) (ha : 0 ≤ a)
    (hb : b ≠ 0) :
    (rgNumRowsMidColumnRun a b).2 = a ∧
    (rgNumRowsMidColumnRun a b).1.1.metadata.numRowsRecorded = some a ∧
    (rgNumRowsMidColumnRun a b).1.2 =
      some (.dataIntegrity 1 (a + b) a) := by
  have h1 : ¬ (a < 0) := not_lt.mpr ha
  have h2 : a ≠ a + b := fun hc => hb (by linarith [hc])
  simp [rgNumRowsMidColumnRun, pstep, pmap, RowGroupSerializer.mk0,
    RowGroupSerializer.NextColumn, RowGroupSerializer.Close,
    RowGroupSerializer.closeBody,
    RowGroupSerializer.checkIfOpen, RowGroupSerializer.CheckRowsWritten,
    RowGroupSerializer.writeBatch, RowGroupSerializer.num_rows,
    RowGroupMetaDataBuilder.NextColumnChunk, RowGroupMetaDataBuilder.Finish,
    RowGroupMetaDataBuilder.set_num_rows, ColumnWriterState.writeBatch,
    h1, h2]

/-- Claim C10, witnessed at 100 rows before the query and 5 more after. -/
theorem C10_num_rows_mid_column_poisons_close_witness :
    (0 : Int) ≤ 100 ∧ (5 : Int) ≠ 0 ∧
    ((rgNumRowsMidColumnRun 100 5).2 = 100 ∧
     (rgNumRowsMidColumnRun 100 5).1.1.metadata.numRowsRecorded = some 100 ∧
     (rgNumRowsMidColumnRun 100 5).1.2 =
       some (.dataIntegrity 1 105 100)) :=
  ⟨by decide, by decide,
   C10_num_rows_mid_column_poisons_close 100 5 (by decide) (by decide)⟩
